import Mathlib

/-!
# Verification of the meeting-notes Power BI visual scripts

Shallow embedding of the aggregation logic of the Python visual scripts in
`powerbi/python-visuals/meeting-notes/`:

* `01_kpi_cards.py` (strict KPI aggregator),
* `01_kpi_cards_v2.py` (robust KPI aggregator with column resolution),
* `02_usage_over_time.py` (time-series aggregator),
* `03_top_users_table.py` (ranked table builder),
* `04_feature_adoption_funnel.py` (funnel builder),
* `05_export_breakdown.py` (breakdown aggregator).

A table cell is modelled by `Value` (a string, a number, or null/`NaN`).
The strict scripts access fixed columns, so their input is a `List Row`
with one field per column the scripts use.  The robust variant resolves
column names dynamically, so its input is a `DataFrame` with an explicit
column list.  Python float arithmetic on ratios is modelled exactly over
`ℚ`; machine counters are `Nat` (they are small Python ints, which do not
overflow).
-/

namespace MeetingNotes

/-- Python `str.lower()` (ASCII case folding, which covers every string
literal appearing in the scripts). -/
def lcStr (s : String) : String := ⟨s.data.map Char.toLower⟩

/-- Code `pat` occurs as a contiguous substring of `hay`. -/
def hasSub (pat hay : List Char) : Bool := hay.tails.any (fun t => pat.isPrefixOf t)

/-- One cell of the injected dataset: a string, a number, or null (`None`/`NaN`). -/
inductive Value where
  | str : String → Value
  | num : Int → Value
  | null : Value
deriving DecidableEq, Repr

/-- pandas `series.str.contains('Export', case=False, na=False)` applied to one
cell: case-insensitive substring test on strings, `False` on null (`na=False`)
and on non-string cells. -/
def containsExport (v : Value) : Bool :=
  match v with
  | .str s => hasSub "export".data (lcStr s).data
  | _ => false

/-- One row of the event-log table, with the columns the strict scripts read. -/
structure Row where
  userEmail : Value
  eventType : Value
  eventDate : Value
  eventID : Value
  tourAction : Value
deriving DecidableEq, Repr

/-- The event-log table (`dataset` injected by the host). -/
abbrev Table := List Row

/-! ## A stable sort

`DataFrame.sort_values` / `Series.value_counts` order rows by a key; the model
uses an insertion sort that is stable: an element is inserted after every
element strictly before it (`lt b a = true`) and before the first element that
is not, so elements that compare equal keep their original relative order. -/

/-- Insert `a` into `l` after every element strictly before it. -/
def stableInsert (lt : α → α → Bool) (a : α) : List α → List α
  | [] => [a]
  | b :: bs => if lt b a then b :: stableInsert lt a bs else a :: b :: bs

/-- Stable insertion sort; `lt b a = true` means `b` is strictly before `a`. -/
def stableSort (lt : α → α → Bool) : List α → List α
  | [] => []
  | x :: xs => stableInsert lt x (stableSort lt xs)

theorem stableInsert_perm (lt : α → α → Bool) (a : α) (l : List α) :
    List.Perm (stableInsert lt a l) (a :: l) := by
  induction l with
  | nil => exact List.Perm.refl _
  | cons b bs ih =>
    by_cases h : lt b a = true
    · simpa [stableInsert, h] using ((ih.cons b).trans (List.Perm.swap a b bs))
    · simp [stableInsert, h]

theorem stableSort_perm (lt : α → α → Bool) (l : List α) :
    List.Perm (stableSort lt l) l := by
  induction l with
  | nil => exact List.Perm.refl _
  | cons x xs ih =>
    exact (stableInsert_perm lt x (stableSort lt xs)).trans (ih.cons x)

theorem mem_stableSort (lt : α → α → Bool) (l : List α) (a : α) :
    a ∈ stableSort lt l ↔ a ∈ l :=
  (stableSort_perm lt l).mem_iff

/-- Sortedness together with stability: if consecutive elements of the input are
related by `R`, then in the output any element is followed only by elements `q`
with `lt q p = false` (no inversion) that moreover satisfy `lt p q ∨ R p q`
(either strictly after `p`, or a tie that kept its original `R`-order).
`hco` is co-transitivity and `hasym` asymmetry of the strict order `lt`. -/
theorem pairwise_stableInsert (lt : α → α → Bool) (R : α → α → Prop)
    (hco : ∀ p q r, lt p r = true → lt p q = true ∨ lt q r = true)
    (hasym : ∀ p q, lt p q = true → lt q p = false)
    (a : α) (l : List α)
    (hl : l.Pairwise (fun p q => lt q p = false ∧ (lt p q = true ∨ R p q)))
    (ha : ∀ b ∈ l, R a b) :
    (stableInsert lt a l).Pairwise
      (fun p q => lt q p = false ∧ (lt p q = true ∨ R p q)) := by
  induction l with
  | nil => simp [stableInsert]
  | cons b bs ih =>
    rcases List.pairwise_cons.1 hl with ⟨hb, hbs⟩
    by_cases h : lt b a = true
    · have hrec := ih hbs (fun c hc => ha c (List.mem_cons_of_mem b hc))
      rw [stableInsert, if_pos h]
      refine List.pairwise_cons.2 ⟨?_, hrec⟩
      intro c hc
      rcases List.mem_cons.1 ((stableInsert_perm lt a bs).mem_iff.1 hc) with hca | hcb
      · subst hca
        exact ⟨hasym b c h, Or.inl h⟩
      · exact hb c hcb
    · rw [stableInsert, if_neg h]
      refine List.pairwise_cons.2 ⟨?_, List.pairwise_cons.2 ⟨hb, hbs⟩⟩
      intro c hc
      rcases List.mem_cons.1 hc with hcb | hcbs
      · subst hcb
        exact ⟨Bool.eq_false_iff.2 h, Or.inr (ha c (List.mem_cons_self c bs))⟩
      · refine ⟨?_, Or.inr (ha c (List.mem_cons_of_mem b hcbs))⟩
        by_cases hca : lt c a = true
        · rcases hco c b a hca with h1 | h2
          · exact absurd ((hb c hcbs).1) (by simp [h1])
          · exact absurd h2 h
        · exact Bool.eq_false_iff.2 hca

theorem pairwise_stableSort (lt : α → α → Bool) (R : α → α → Prop)
    (hco : ∀ p q r, lt p r = true → lt p q = true ∨ lt q r = true)
    (hasym : ∀ p q, lt p q = true → lt q p = false)
    (l : List α) (hl : l.Pairwise R) :
    (stableSort lt l).Pairwise
      (fun p q => lt q p = false ∧ (lt p q = true ∨ R p q)) := by
  induction l with
  | nil => simp [stableSort]
  | cons x xs ih =>
    rcases List.pairwise_cons.1 hl with ⟨hx, hxs⟩
    exact pairwise_stableInsert lt R hco hasym x (stableSort lt xs) (ih hxs)
      (fun b hb => hx b ((stableSort_perm lt xs).mem_iff.1 hb))

/-! ## First-appearance deduplication

pandas hash-based grouping (`groupby` keys, `value_counts` keys) enumerates
distinct values in order of first appearance. -/

/-- Worker: distinct elements of the list not already in `seen`, each kept at
its first appearance. -/
def dedupFirstAux [DecidableEq α] (seen : List α) : List α → List α
  | [] => []
  | x :: xs =>
    if x ∈ seen then dedupFirstAux seen xs
    else x :: dedupFirstAux (x :: seen) xs

/-- Distinct elements of `l`, each kept at its first appearance. -/
def dedupFirst [DecidableEq α] (l : List α) : List α := dedupFirstAux [] l

theorem mem_dedupFirstAux [DecidableEq α] (l : List α) (a : α) :
    ∀ seen : List α, a ∈ dedupFirstAux seen l ↔ a ∈ l ∧ a ∉ seen := by
  induction l with
  | nil => intro seen; simp [dedupFirstAux]
  | cons x xs ih =>
    intro seen
    by_cases hx : x ∈ seen
    · rw [dedupFirstAux, if_pos hx, ih seen]
      constructor
      · rintro ⟨h1, h2⟩
        exact ⟨List.mem_cons_of_mem x h1, h2⟩
      · rintro ⟨h1, h2⟩
        rcases List.mem_cons.1 h1 with h3 | h3
        · exact absurd (h3 ▸ hx) h2
        · exact ⟨h3, h2⟩
    · rw [dedupFirstAux, if_neg hx]
      constructor
      · intro h
        rcases List.mem_cons.1 h with h1 | h1
        · exact ⟨h1 ▸ List.mem_cons_self x xs, h1 ▸ hx⟩
        · have h2 := (ih (x :: seen)).1 h1
          exact ⟨List.mem_cons_of_mem x h2.1,
            fun hs => h2.2 (List.mem_cons_of_mem x hs)⟩
      · rintro ⟨h1, h2⟩
        rcases List.mem_cons.1 h1 with h3 | h3
        · exact h3 ▸ List.mem_cons_self x _
        · by_cases hax : a = x
          · exact hax ▸ List.mem_cons_self x _
          · refine List.mem_cons_of_mem x ((ih (x :: seen)).2 ⟨h3, ?_⟩)
            intro hs
            rcases List.mem_cons.1 hs with h4 | h4
            · exact hax h4
            · exact h2 h4

theorem mem_dedupFirst [DecidableEq α] (l : List α) (a : α) :
    a ∈ dedupFirst l ↔ a ∈ l := by
  rw [dedupFirst, mem_dedupFirstAux]
  simp

theorem dedupFirstAux_nodup [DecidableEq α] (l : List α) :
    ∀ seen : List α, (dedupFirstAux seen l).Pairwise (fun a b => a ≠ b) := by
  induction l with
  | nil => intro seen; simp [dedupFirstAux]
  | cons x xs ih =>
    intro seen
    by_cases hx : x ∈ seen
    · rw [dedupFirstAux, if_pos hx]
      exact ih seen
    · rw [dedupFirstAux, if_neg hx]
      refine List.pairwise_cons.2 ⟨?_, ih (x :: seen)⟩
      intro b hb hxb
      have h2 := (mem_dedupFirstAux xs b (x :: seen)).1 hb
      exact h2.2 (by rw [← hxb]; exact List.mem_cons_self x seen)

theorem dedupFirst_nodup [DecidableEq α] (l : List α) :
    (dedupFirst l).Pairwise (fun a b => a ≠ b) :=
  dedupFirstAux_nodup l []

/-! ## `01_kpi_cards.py` — strict KPI aggregator -/

namespace KPI

/-- Code `len(df[df['TourAction'] == 'started'])`. -/
def tours_started (df : Table) : Nat :=
  df.countP (fun r => decide (r.tourAction = .str "started"))

/-- Code `len(df[df['TourAction'] == 'completed'])`. -/
def tours_completed (df : Table) : Nat :=
  df.countP (fun r => decide (r.tourAction = .str "completed"))

/-- Code `(tours_completed / tours_started * 100) if tours_started > 0 else 0`,
float division modelled exactly over `ℚ`. -/
def tour_completion_rate (df : Table) : ℚ :=
  if 0 < tours_started df then
    (tours_completed df : ℚ) / (tours_started df : ℚ) * 100
  else 0

/-- Code `len(df[df['EventType'].str.contains('Export', case=False, na=False)])`:
the value on the success path of the `.str` accessor; the accessor raises,
uncaught, on a string-less numeric column — `KPI.total_exportsE` below makes
that error path explicit. -/
def total_exports (df : Table) : Nat :=
  df.countP (fun r => containsExport r.eventType)

end KPI

/-! ## `04_feature_adoption_funnel.py` — funnel builder -/

namespace Funnel

/-- Code `len(df[df['EventType'] == 'userLogin'])` (stage 1, "User Login"). -/
def total_logins (df : Table) : Nat :=
  df.countP (fun r => decide (r.eventType = .str "userLogin"))

/-- Code `len(df[df['EventType'] == 'notesGenerated'])` (stage 2, "Notes Generated"). -/
def notes_generated (df : Table) : Nat :=
  df.countP (fun r => decide (r.eventType = .str "notesGenerated"))

/-- Code `len(df[df['EventType'].str.contains('Export', case=False, na=False)])`
(stage 3, "Exported"): success-path value; the uncaught `.str` accessor error
on a string-less numeric column is made explicit by `Funnel.total_exportsE`. -/
def total_exports (df : Table) : Nat :=
  df.countP (fun r => containsExport r.eventType)

/-- Stage 2 conversion: `funnel_data[1]['count'] / funnel_data[0]['count'] * 100`
when stage 1 is non-empty, else `0`. -/
def conversion2 (df : Table) : ℚ :=
  if 0 < total_logins df then
    (notes_generated df : ℚ) / (total_logins df : ℚ) * 100
  else 0

/-- Stage 3 conversion: `funnel_data[2]['count'] / funnel_data[0]['count'] * 100`
when stage 1 is non-empty, else `0`. -/
def conversion3 (df : Table) : ℚ :=
  if 0 < total_logins df then
    (total_exports df : ℚ) / (total_logins df : ℚ) * 100
  else 0

/-- Rendered width of a stage with count `c` when stage 1 has count `c1`:
`width = max_width * (count / stage1count); width = max(width, min_width)`
inside `if funnel_data[0]['count'] > 0`, else `width = max_width`;
`max_width = 0.8`, `min_width = 0.3`. -/
def stageWidth (c c1 : Nat) : ℚ :=
  if 0 < c1 then max ((0.8 : ℚ) * ((c : ℚ) / (c1 : ℚ))) 0.3 else 0.8

end Funnel

/-- Python/pandas string comparison: lexicographic by code point (computed on
the character list, which is kernel-reducible). -/
def strLtB (a b : String) : Bool := decide (a.data < b.data)

theorem strLtB_iff (a b : String) : strLtB a b = true ↔ a < b := by
  rw [strLtB, decide_eq_true_eq]
  exact (String.lt_iff_toList_lt).symm

/-! ## `03_top_users_table.py` — ranked table builder -/

namespace TopUsers

/-- The string user emails of `df` in row order.  `groupby('UserEmail')` keys:
null keys are dropped by pandas; per the data contract (§3 of the spec)
`UserEmail` is a string column, so only string cells form groups. -/
def userCells (df : Table) : List String :=
  df.filterMap (fun r => match r.userEmail with | .str s => some s | _ => none)

/-- Distinct users in first-appearance order. -/
def encounterUsers (df : Table) : List String := dedupFirst (userCells df)

/-- Distinct users as `groupby` (with its default `sort=True`) orders them:
ascending alphabetical. -/
def groupUsers (df : Table) : List String :=
  stableSort strLtB (encounterUsers df)

/-- Code `df.groupby('UserEmail').agg({'EventID': 'count'})`: pandas `count` counts
the non-null `EventID` cells of the user's rows. -/
def totalEvents (df : Table) (u : String) : Nat :=
  df.countP (fun r => decide (r.userEmail = .str u) && decide (r.eventID ≠ .null))

/-- Code `df[df['EventType'] == 'notesGenerated'].groupby('UserEmail').size()` for
one user (0 when the user has no such rows — the `fillna(0)`). -/
def notesOf (df : Table) (u : String) : Nat :=
  df.countP (fun r =>
    decide (r.userEmail = .str u) && decide (r.eventType = .str "notesGenerated"))

/-- Code `df[df['EventType'].str.contains('Export', case=False, na=False)]
.groupby('UserEmail').size()` for one user (0 when absent — the `fillna(0)`):
success-path value; the uncaught `.str` accessor error on a string-less
numeric column is made explicit by `TopUsers.exportsOfE`. -/
def exportsOf (df : Table) (u : String) : Nat :=
  df.countP (fun r => decide (r.userEmail = .str u) && containsExport r.eventType)

/-- Code `x.split('@')[0] if '@' in x else x`: the longest prefix before the first
`'@'`, or the whole string when it has none. -/
def localPart (x : String) : String :=
  if x.data.contains '@' then ⟨x.data.takeWhile (fun c => !(c == '@'))⟩ else x

/-- One row of the rendered table (the `User` display label plus the three
counts; `user` is the `UserEmail` group key it was built from). -/
structure URow where
  user : String
  total : Nat
  notes : Nat
  exports : Nat
  label : String
deriving DecidableEq, Repr

/-- The per-user aggregate row. -/
def mkURow (df : Table) (u : String) : URow :=
  ⟨u, totalEvents df u, notesOf df u, exportsOf df u, localPart u⟩

/-- The aggregated frame before `sort_values`: one row per `groupby` key, in
`groupby` key order. -/
def baseRows (df : Table) : List URow := (groupUsers df).map (mkURow df)

/-- Code `user_metrics.sort_values('Total Events', ascending=False).head(10)`:
order the rows by descending total and keep the first 10.  The default
`kind='quicksort'` of `sort_values` gives no tie-order guarantee, so the model
fixes one concrete descending order (a stable sort over the `groupby` key
order); numpy's actual tie order coincides with a stable order only on arrays
small enough for its insertion-sort path.  General theorems about this
definition therefore use only properties shared by every descending order;
concrete evaluations are confined to tables far below that threshold. -/
def rankedUsers (df : Table) : List URow :=
  (stableSort (fun p q => decide (q.total < p.total)) (baseRows df)).take 10

/-- The ranked table as the spec's words describe it: the same stable
descending sort and truncation, but applied to the per-user aggregates in
original encounter order (order of first appearance in the input) instead of
`groupby`'s alphabetical key order. -/
def claimedRankedUsers (df : Table) : List URow :=
  (stableSort (fun p q => decide (q.total < p.total))
    ((encounterUsers df).map (mkURow df))).take 10

end TopUsers

/-! ## `02_usage_over_time.py` — time-series aggregator -/

namespace Usage

/-- The `EventType` column. -/
def eventTypes (df : Table) : List Value := df.map (fun r => r.eventType)

/-- Code `df['EventType'].value_counts()` keys: distinct non-null values, in
first-appearance order (pandas hash-table order) before sorting. -/
def distinctTypes (df : Table) : List Value :=
  dedupFirst ((eventTypes df).filter (fun v => !(v == .null)))

/-- Number of rows with this exact `EventType`. -/
def typeCount (df : Table) (t : Value) : Nat := (eventTypes df).count t

/-- Code `df['EventType'].value_counts()`: (value, count) pairs sorted by count
descending (stable sort model). -/
def typeValueCounts (df : Table) : List (Value × Nat) :=
  stableSort (fun p q => decide (q.2 < p.2))
    ((distinctTypes df).map (fun t => (t, typeCount df t)))

/-- Code `top_events = df['EventType'].value_counts().head(5).index.tolist()`. -/
def topEvents (df : Table) : List Value :=
  ((typeValueCounts df).take 5).map (fun p => p.1)

/-- The series for type `t` is non-empty: `daily_events` groups by
`(EventDate.dt.date, EventType)` and `groupby` drops rows whose date is null
(`NaT`), so the series has a point iff some row of type `t` has a non-null
date. -/
def seriesNonempty (df : Table) (t : Value) : Bool :=
  df.any (fun r => decide (r.eventType = t) && decide (r.eventDate ≠ .null))

/-- The plotted series: each selected type is drawn only
`if not event_data.empty`. -/
def plottedSeries (df : Table) : List Value :=
  (topEvents df).filter (seriesNonempty df)

end Usage

/-! ## `05_export_breakdown.py` — breakdown aggregator -/

namespace Breakdown

/-- Code `export_events = df[df['EventType'].str.contains('Export', case=False, na=False)]`:
success-path value; the uncaught `.str` accessor error on a string-less
numeric column is made explicit by `Breakdown.export_eventsE`. -/
def export_events (df : Table) : Table :=
  df.filter (fun r => containsExport r.eventType)

/-- Python `str.title()` for ASCII: the first letter of each run of alphabetic
characters is uppercased, the rest lowercased. `prevAlpha` says whether the
previous character was alphabetic. -/
def pyTitle (prevAlpha : Bool) : List Char → List Char
  | [] => []
  | c :: cs =>
    if c.isAlpha then
      (if prevAlpha then c.toLower else c.toUpper) :: pyTitle true cs
    else c :: pyTitle false cs

/-- Python `x.replace('Export', ' Export')`: every (non-overlapping, leftmost
first, case-sensitive) occurrence of `Export` gets a space put before it. -/
def pyReplaceExport : List Char → List Char
  | 'E' :: 'x' :: 'p' :: 'o' :: 'r' :: 't' :: rest =>
    ' ' :: 'E' :: 'x' :: 'p' :: 'o' :: 'r' :: 't' :: pyReplaceExport rest
  | c :: rest => c :: pyReplaceExport rest
  | [] => []

/-- The fixed lookup `export_type_mapping`. -/
def export_type_mapping : List (String × String) :=
  [("pdfExport", "PDF Export"),
   ("clipboardExport", "Clipboard Export"),
   ("emailExport", "Email Export"),
   ("csvExport", "CSV Export"),
   ("docxExport", "DOCX Export")]

/-- Code `export_type_mapping.get(x, x.replace('Export', ' Export').title())`. -/
def displayName (x : String) : String :=
  match export_type_mapping.lookup x with
  | some d => d
  | none => ⟨pyTitle false (pyReplaceExport x.data)⟩

/-- The display transform on a raw index value (the `value_counts` index holds
the `EventType` cells, which are strings for every row passing the filter). -/
def displayNameV : Value → Value
  | .str x => .str (displayName x)
  | v => v

/-- Code `export_counts` after the index rename: (display name, count) pairs. -/
def exportBreakdown (df : Table) : List (Value × Nat) :=
  (Usage.typeValueCounts (export_events df)).map (fun p => (displayNameV p.1, p.2))

end Breakdown

/-! ## `01_kpi_cards_v2.py` — robust KPI aggregator

The robust variant resolves column names dynamically, so its input keeps the
column list explicit. -/

/-- A dataset with named columns; row `r` holds the cells of the columns in
order. -/
structure DataFrame where
  columns : List String
  rows : List (List Value)
deriving DecidableEq, Repr

namespace KPIv2

/-- The value of `{col.lower(): col for col in df.columns}` at key `k`: the
dict comprehension lets a later column overwrite an earlier one with the same
lowercase form, so the last matching column wins. -/
def lowerLookup (cols : List String) (k : String) : Option String :=
  (cols.filter (fun c => decide (lcStr c = k))).getLast?

/-- Code `find_column(df, possible_names)`: return the actual column name for the
first alias whose lowercase form is a key of the lowercase-column dict, else
`None`. -/
def find_column (df : DataFrame) (possible_names : List String) : Option String :=
  possible_names.findSome? (fun name => lowerLookup df.columns (lcStr name))

/-- Code `df[c]` as a column of cells: a `KeyError` if `c` is not a column,
otherwise the cells at the column's position (first position, for duplicated
names). -/
def getCol (df : DataFrame) (c : String) : Except String (List Value) :=
  match df.columns.indexOf? c with
  | some i => .ok (df.rows.map (fun r => r.getD i .null))
  | none => .error "KeyError"

/-- The cell holds a string. -/
def isStr : Value → Bool
  | .str _ => true
  | _ => false

/-- The cell holds a number. -/
def isNum : Value → Bool
  | .num _ => true
  | _ => false

/-- Code `series.nunique()`: the number of distinct non-null values. -/
def nunique (col : List Value) : Nat :=
  (dedupFirst (col.filter (fun v => !(v == .null)))).length

/-- Code `series.str.contains('Export', case=False, na=False)`.  The `.str`
accessor raises `AttributeError` when the series has a numeric dtype, i.e.
when it holds a number but no string (an all-numeric column is `int64`, a
numeric column with nulls is `float64`; any string makes the dtype `object`,
on which non-strings and nulls give `False` under `na=False`). -/
def strContainsExport (col : List Value) : Except String (List Bool) :=
  if col.any isNum && !(col.any isStr) then .error "AttributeError"
  else .ok (col.map containsExport)

/-- Code `df[user_col].nunique()` on a resolved column. -/
def rawTotalUsers (df : DataFrame) (c : String) : Except String Nat := do
  let col ← getCol df c
  pure (nunique col)

/-- Code `len(df[df[event_type_col] == 'notesGenerated'])` on a resolved column
(`==` compares cells and is `False` on nulls and non-strings, never raising). -/
def rawNotesGenerated (df : DataFrame) (c : String) : Except String Nat := do
  let col ← getCol df c
  pure (col.countP (fun v => decide (v = .str "notesGenerated")))

/-- Code `len(df[df[event_type_col].str.contains('Export', case=False, na=False)])`
on a resolved column. -/
def rawTotalExports (df : DataFrame) (c : String) : Except String Nat := do
  let col ← getCol df c
  let mask ← strContainsExport col
  pure (mask.count true)

/-- The tour block on a resolved column: two equality filters and the guarded
ratio. -/
def rawTourRate (df : DataFrame) (c : String) : Except String ℚ := do
  let col ← getCol df c
  let started := col.countP (fun v => decide (v = .str "started"))
  let completed := col.countP (fun v => decide (v = .str "completed"))
  pure (if 0 < started then (completed : ℚ) / (started : ℚ) * 100 else 0)

/-- Code `try: ... except: metric = 0` around a raw computation. -/
def tryZeroNat (e : Except String Nat) : Nat := e.toOption.getD 0

def tryZeroRat (e : Except String ℚ) : ℚ := e.toOption.getD 0

def userAliases : List String := ["UserEmail", "useremail", "user_email", "Email", "User"]

def eventTypeAliases : List String := ["EventType", "eventtype", "event_type", "Type"]

def eventIdAliases : List String := ["EventID", "eventid", "event_id", "ID"]

def tourActionAliases : List String := ["TourAction", "touraction", "tour_action", "Action"]

/-- The `total_users` metric on its own: resolution failure or a raised
computation degrades to 0. -/
def totalUsersV2 (df : DataFrame) : Nat :=
  match find_column df userAliases with
  | some c => tryZeroNat (rawTotalUsers df c)
  | none => 0

/-- The `notes_generated` metric on its own. -/
def notesGeneratedV2 (df : DataFrame) : Nat :=
  match find_column df eventTypeAliases with
  | some c => tryZeroNat (rawNotesGenerated df c)
  | none => 0

/-- The `total_exports` metric on its own. -/
def totalExportsV2 (df : DataFrame) : Nat :=
  match find_column df eventTypeAliases with
  | some c => tryZeroNat (rawTotalExports df c)
  | none => 0

/-- The `tour_completion_rate` metric on its own. -/
def tourRateV2 (df : DataFrame) : ℚ :=
  match find_column df tourActionAliases with
  | some c => tryZeroRat (rawTourRate df c)
  | none => 0

/-- The metric-computation part of the v2 script, run top to bottom: resolve
the four columns (`event_id_col` is resolved but never used), compute the four
KPIs each inside its own `try/except`/`if`-guard, and hand the 4-tuple to the
rendering code.  An uncaught exception would abort the script (`.error`). -/
def kpiV2Script (df : DataFrame) : Except String (Nat × Nat × Nat × ℚ) := do
  let user_col := find_column df userAliases
  let event_type_col := find_column df eventTypeAliases
  let _event_id_col := find_column df eventIdAliases
  let tour_action_col := find_column df tourActionAliases
  let total_users :=
    match user_col with
    | some c => tryZeroNat (rawTotalUsers df c)
    | none => 0
  let notes_generated :=
    match event_type_col with
    | some c => tryZeroNat (rawNotesGenerated df c)
    | none => 0
  let total_exports :=
    match event_type_col with
    | some c => tryZeroNat (rawTotalExports df c)
    | none => 0
  let tour_completion_rate :=
    match tour_action_col with
    | some c => tryZeroRat (rawTourRate df c)
    | none => 0
  pure (total_users, notes_generated, total_exports, tour_completion_rate)

end KPIv2

/-! ## Error-path embeddings of the strict scripts' export filters

The four strict scripts apply `df['EventType'].str.contains('Export',
case=False, na=False)` with no `try/except`.  The `.str` accessor itself
raises `AttributeError` on a string-less numeric column (all-numeric `int64`,
or numeric-with-nulls `float64`) — the same condition `KPIv2.strContainsExport`
models for the robust script.  The definitions below make that uncaught error
path explicit for each strict script; the total functions defined earlier are
their values on the success path. -/

/-- Code `df[mask]`: the rows of `df` selected by a boolean mask. -/
def maskFilter (df : Table) (mask : List Bool) : Table :=
  (df.zip mask).filterMap (fun p => if p.2 then some p.1 else none)

/-- Code `len(df[df['EventType'].str.contains('Export', case=False, na=False)])`
of `01_kpi_cards.py` line 21, with the `.str` accessor's error made explicit. -/
def KPI.total_exportsE (df : Table) : Except String Nat := do
  let mask ← KPIv2.strContainsExport (df.map (fun r => r.eventType))
  pure ((maskFilter df mask).length)

/-- Code `df[df['EventType'].str.contains(...)].groupby('UserEmail').size()`
of `03_top_users_table.py` line 26 at one user, with the `.str` accessor's
error made explicit. -/
def TopUsers.exportsOfE (df : Table) (u : String) : Except String Nat := do
  let mask ← KPIv2.strContainsExport (df.map (fun r => r.eventType))
  pure ((maskFilter df mask).countP (fun r => decide (r.userEmail = .str u)))

/-- Code `len(df[df['EventType'].str.contains(...)])` of
`04_feature_adoption_funnel.py` line 20, with the `.str` accessor's error made
explicit. -/
def Funnel.total_exportsE (df : Table) : Except String Nat := do
  let mask ← KPIv2.strContainsExport (df.map (fun r => r.eventType))
  pure ((maskFilter df mask).length)

/-- Code `export_events = df[df['EventType'].str.contains(...)]` of
`05_export_breakdown.py` line 17, with the `.str` accessor's error made
explicit. -/
def Breakdown.export_eventsE (df : Table) : Except String Table := do
  let mask ← KPIv2.strContainsExport (df.map (fun r => r.eventType))
  pure (maskFilter df mask)

/-! ## Generic helper lemmas -/

theorem countP_erase_null (df : Table) (p : Row → Bool)
    (h : ∀ r, r.eventType = Value.null → p r = false) :
    (df.filter (fun r => !(r.eventType == Value.null))).countP p = df.countP p := by
  induction df with
  | nil => rfl
  | cons r rs ih =>
    by_cases hr : r.eventType = Value.null
    · have hq : (!(r.eventType == Value.null)) = false := by simp [hr]
      rw [List.filter_cons, hq]
      simp only [Bool.false_eq_true, if_false]
      rw [List.countP_cons, h r hr, ih]
      simp
    · have hq : (!(r.eventType == Value.null)) = true := by simp [hr]
      rw [List.filter_cons, hq]
      simp only [if_true]
      rw [List.countP_cons, List.countP_cons, ih]

theorem filter_erase_null (df : Table) (p : Row → Bool)
    (h : ∀ r, r.eventType = Value.null → p r = false) :
    (df.filter (fun r => !(r.eventType == Value.null))).filter p = df.filter p := by
  induction df with
  | nil => rfl
  | cons r rs ih =>
    by_cases hr : r.eventType = Value.null
    · have hq : (!(r.eventType == Value.null)) = false := by simp [hr]
      rw [List.filter_cons, hq]
      simp only [Bool.false_eq_true, if_false]
      rw [List.filter_cons, h r hr]
      simp only [Bool.false_eq_true, if_false]
      exact ih
    · have hq : (!(r.eventType == Value.null)) = true := by simp [hr]
      rw [List.filter_cons, hq]
      simp only [if_true]
      rw [List.filter_cons, List.filter_cons]
      cases hp : p r with
      | true => simp only [if_true]; rw [ih]
      | false => simp only [Bool.false_eq_true, if_false]; exact ih

/-! ## Claim theorems -/

/-- C6: For all funnel stage counts with `count(stage1) > count(stage2) > 0`,
the rendered widths `width = max(max_width * count / stage1_count, min_width)`
satisfy `width(stage2) < width(stage1)` strictly (exact rational model of the
float arithmetic). -/
theorem funnel_width_strict_decrease (c1 c2 : Nat) (h2 : 0 < c2) (h1 : c2 < c1) :
    Funnel.stageWidth c2 c1 < Funnel.stageWidth c1 c1 := by
  have hc1 : 0 < c1 := lt_trans h2 h1
  have hc1q : (0 : ℚ) < (c1 : ℚ) := by exact_mod_cast hc1
  rw [Funnel.stageWidth, Funnel.stageWidth, if_pos hc1, if_pos hc1]
  rw [div_self (ne_of_gt hc1q), mul_one]
  have hmax1 : max (0.8 : ℚ) 0.3 = 0.8 := by norm_num
  rw [hmax1]
  apply max_lt
  · have hratio : (c2 : ℚ) / (c1 : ℚ) < 1 := by
      rw [div_lt_one hc1q]
      exact_mod_cast h1
    calc (0.8 : ℚ) * ((c2 : ℚ) / (c1 : ℚ)) < 0.8 * 1 := by
          exact mul_lt_mul_of_pos_left hratio (by norm_num)
      _ = 0.8 := mul_one _
  · norm_num

/-- Witness for C6 at the spec's stage counts `[100, 40, 10]`. -/
theorem funnel_width_strict_decrease_witness :
    Funnel.stageWidth 40 100 < Funnel.stageWidth 100 100 :=
  funnel_width_strict_decrease 100 40 (by norm_num) (by norm_num)

/-- A three-row sample table: one login that started a tour, one note
generation on a completed tour, one PDF export. -/
def sampleTableC1 : Table :=
  [⟨.str "a@x", .str "userLogin", .null, .str "e1", .str "started"⟩,
   ⟨.str "a@x", .str "notesGenerated", .null, .str "e2", .str "completed"⟩,
   ⟨.str "a@x", .str "pdfExport", .null, .str "e3", .null⟩]

/-- C1: The tour completion rate is `completed/started*100` when
`tours_started > 0` and `0` when it is `0`; each funnel conversion (stages 2
and 3) is that stage's count over the stage-1 count times 100 when stage 1 is
non-empty and `0` otherwise; on the empty table every such ratio is `0` (the
model's ratios are total functions — no division error exists). -/
theorem ratio_zero_denominator_policy (df : Table) :
    (0 < KPI.tours_started df →
      KPI.tour_completion_rate df =
        (KPI.tours_completed df : ℚ) / (KPI.tours_started df : ℚ) * 100) ∧
    (KPI.tours_started df = 0 → KPI.tour_completion_rate df = 0) ∧
    (0 < Funnel.total_logins df →
      Funnel.conversion2 df =
        (Funnel.notes_generated df : ℚ) / (Funnel.total_logins df : ℚ) * 100 ∧
      Funnel.conversion3 df =
        (Funnel.total_exports df : ℚ) / (Funnel.total_logins df : ℚ) * 100) ∧
    (Funnel.total_logins df = 0 →
      Funnel.conversion2 df = 0 ∧ Funnel.conversion3 df = 0) ∧
    (df = [] → KPI.tour_completion_rate df = 0 ∧
      Funnel.conversion2 df = 0 ∧ Funnel.conversion3 df = 0) := by
  refine ⟨?_, ?_, ?_, ?_, ?_⟩
  · intro h
    rw [KPI.tour_completion_rate, if_pos h]
  · intro h
    rw [KPI.tour_completion_rate, if_neg (by omega)]
  · intro h
    exact ⟨by rw [Funnel.conversion2, if_pos h], by rw [Funnel.conversion3, if_pos h]⟩
  · intro h
    exact ⟨by rw [Funnel.conversion2, if_neg (by omega)],
           by rw [Funnel.conversion3, if_neg (by omega)]⟩
  · intro h
    subst h
    refine ⟨?_, ?_, ?_⟩ <;>
      simp [KPI.tour_completion_rate, Funnel.conversion2, Funnel.conversion3,
        KPI.tours_started, Funnel.total_logins]

/-- Witness for C1 on a concrete table with a started tour and a login. -/
theorem ratio_zero_denominator_policy_witness :
    KPI.tour_completion_rate sampleTableC1 =
      (KPI.tours_completed sampleTableC1 : ℚ) / (KPI.tours_started sampleTableC1 : ℚ) * 100 ∧
    Funnel.conversion2 sampleTableC1 =
      (Funnel.notes_generated sampleTableC1 : ℚ) / (Funnel.total_logins sampleTableC1 : ℚ) * 100 ∧
    KPI.tour_completion_rate ([] : Table) = 0 :=
  ⟨(ratio_zero_denominator_policy sampleTableC1).1 (by decide),
   ((ratio_zero_denominator_policy sampleTableC1).2.2.1 (by decide)).1,
   ((ratio_zero_denominator_policy ([] : Table)).2.2.2.2 rfl).1⟩

theorem strContainsExport_error (col : List Value)
    (h : (col.any KPIv2.isNum && !(col.any KPIv2.isStr)) = true) :
    KPIv2.strContainsExport col = .error "AttributeError" := by
  rw [KPIv2.strContainsExport, if_pos h]

theorem strContainsExport_ok (col : List Value)
    (h : (col.any KPIv2.isNum && !(col.any KPIv2.isStr)) = false) :
    KPIv2.strContainsExport col = .ok (col.map containsExport) := by
  rw [KPIv2.strContainsExport, if_neg (by simp [h])]

theorem maskFilter_map (q : Row → Bool) (df : Table) :
    maskFilter df (df.map q) = df.filter q := by
  induction df with
  | nil => rfl
  | cons r rs ih =>
    rw [maskFilter, List.map_cons, List.zip_cons_cons, List.filterMap_cons]
    rw [maskFilter] at ih
    cases hq : q r <;> simp [hq, List.filter_cons, ih]

/-- A table holding a null `EventType` row next to a numeric one: pandas
stores this column as `float64` (a number plus `NaN`), on which the `.str`
accessor raises. -/
def sampleTableC10 : Table :=
  [⟨.str "u", Value.null, .null, .null, .null⟩,
   ⟨.str "u", .num 1, .null, .null, .null⟩]

/-- C10 counterexample: a concrete table containing a row with a null
`EventType`, on which every one of the four export filters raises an uncaught
`AttributeError` (the column holds a number and no string, so the `.str`
accessor fails) instead of treating the null row as a harmless non-match —
refuting the claim's "never causes an error". -/
theorem null_eventType_error_counterexample :
    (⟨.str "u", Value.null, .null, .null, .null⟩ : Row) ∈ sampleTableC10 ∧
    KPI.total_exportsE sampleTableC10 = .error "AttributeError" ∧
    TopUsers.exportsOfE sampleTableC10 "u" = .error "AttributeError" ∧
    Funnel.total_exportsE sampleTableC10 = .error "AttributeError" ∧
    Breakdown.export_eventsE sampleTableC10 = .error "AttributeError" :=
  ⟨by decide, rfl, rfl, rfl, rfl⟩

/-- C10 amended: a null `EventType` cell is itself a non-match for every
export filter (`na=False` maps it to `False`), and whenever the `.str`
accessor succeeds — the `EventType` column holds a string, or holds no number
— each of the four export aggregates returns its success value, a value
unchanged when the null-`EventType` rows are erased from the table; but on a
column holding a number and no string (`int64`/`float64` dtype) the accessor
raises an uncaught `AttributeError` in all four scripts, so a table with a
null `EventType` row can abort the render rather than merely skip that row. -/
theorem null_eventType_nonmatch_amended (df : Table) :
    containsExport Value.null = false ∧
    (((df.map (fun r => r.eventType)).any KPIv2.isNum &&
        !((df.map (fun r => r.eventType)).any KPIv2.isStr)) = false →
      KPI.total_exportsE df = .ok (KPI.total_exports df) ∧
      (∀ u : String, TopUsers.exportsOfE df u = .ok (TopUsers.exportsOf df u)) ∧
      Funnel.total_exportsE df = .ok (Funnel.total_exports df) ∧
      Breakdown.export_eventsE df = .ok (Breakdown.export_events df)) ∧
    (((df.map (fun r => r.eventType)).any KPIv2.isNum &&
        !((df.map (fun r => r.eventType)).any KPIv2.isStr)) = true →
      KPI.total_exportsE df = .error "AttributeError" ∧
      (∀ u : String, TopUsers.exportsOfE df u = .error "AttributeError") ∧
      Funnel.total_exportsE df = .error "AttributeError" ∧
      Breakdown.export_eventsE df = .error "AttributeError") ∧
    KPI.total_exports df =
      KPI.total_exports (df.filter (fun r => !(r.eventType == Value.null))) ∧
    (∀ u : String, TopUsers.exportsOf df u =
      TopUsers.exportsOf (df.filter (fun r => !(r.eventType == Value.null))) u) ∧
    Funnel.total_exports df =
      Funnel.total_exports (df.filter (fun r => !(r.eventType == Value.null))) ∧
    Breakdown.export_events df =
      Breakdown.export_events (df.filter (fun r => !(r.eventType == Value.null))) := by
  have hmm : (df.map (fun r => r.eventType)).map containsExport =
      df.map (fun r => containsExport r.eventType) := by
    rw [List.map_map]
    rfl
  refine ⟨rfl, ?_, ?_, ?_, ?_, ?_, ?_⟩
  · intro h
    have hok := strContainsExport_ok _ h
    refine ⟨?_, fun u => ?_, ?_, ?_⟩
    · have hdef : KPI.total_exportsE df =
        Except.bind (KPIv2.strContainsExport (df.map (fun r => r.eventType)))
          (fun mask => Except.ok ((maskFilter df mask).length)) := rfl
      rw [hdef, hok]
      show Except.ok ((maskFilter df
        ((df.map (fun r => r.eventType)).map containsExport)).length) = _
      rw [hmm, maskFilter_map]
      show Except.ok ((df.filter (fun r => containsExport r.eventType)).length) =
        Except.ok (df.countP (fun r => containsExport r.eventType))
      exact congrArg Except.ok
        (List.countP_eq_length_filter (fun r => containsExport r.eventType) df).symm
    · have hdef : TopUsers.exportsOfE df u =
        Except.bind (KPIv2.strContainsExport (df.map (fun r => r.eventType)))
          (fun mask => Except.ok
            ((maskFilter df mask).countP (fun r => decide (r.userEmail = .str u)))) := rfl
      rw [hdef, hok]
      show Except.ok ((maskFilter df
        ((df.map (fun r => r.eventType)).map containsExport)).countP
          (fun r => decide (r.userEmail = .str u))) = _
      rw [hmm, maskFilter_map]
      show Except.ok ((df.filter (fun r => containsExport r.eventType)).countP
          (fun r => decide (r.userEmail = Value.str u))) =
        Except.ok (df.countP
          (fun r => decide (r.userEmail = Value.str u) && containsExport r.eventType))
      exact congrArg Except.ok
        (List.countP_filter (fun r => decide (r.userEmail = Value.str u))
          (fun r => containsExport r.eventType) df)
    · have hdef : Funnel.total_exportsE df =
        Except.bind (KPIv2.strContainsExport (df.map (fun r => r.eventType)))
          (fun mask => Except.ok ((maskFilter df mask).length)) := rfl
      rw [hdef, hok]
      show Except.ok ((maskFilter df
        ((df.map (fun r => r.eventType)).map containsExport)).length) = _
      rw [hmm, maskFilter_map]
      show Except.ok ((df.filter (fun r => containsExport r.eventType)).length) =
        Except.ok (df.countP (fun r => containsExport r.eventType))
      exact congrArg Except.ok
        (List.countP_eq_length_filter (fun r => containsExport r.eventType) df).symm
    · have hdef : Breakdown.export_eventsE df =
        Except.bind (KPIv2.strContainsExport (df.map (fun r => r.eventType)))
          (fun mask => Except.ok (maskFilter df mask)) := rfl
      rw [hdef, hok]
      show Except.ok (maskFilter df
        ((df.map (fun r => r.eventType)).map containsExport)) = _
      rw [hmm, maskFilter_map]
      rfl
  · intro h
    have herr := strContainsExport_error _ h
    refine ⟨?_, fun u => ?_, ?_, ?_⟩
    · have hdef : KPI.total_exportsE df =
        Except.bind (KPIv2.strContainsExport (df.map (fun r => r.eventType)))
          (fun mask => Except.ok ((maskFilter df mask).length)) := rfl
      rw [hdef, herr]
      rfl
    · have hdef : TopUsers.exportsOfE df u =
        Except.bind (KPIv2.strContainsExport (df.map (fun r => r.eventType)))
          (fun mask => Except.ok
            ((maskFilter df mask).countP (fun r => decide (r.userEmail = .str u)))) := rfl
      rw [hdef, herr]
      rfl
    · have hdef : Funnel.total_exportsE df =
        Except.bind (KPIv2.strContainsExport (df.map (fun r => r.eventType)))
          (fun mask => Except.ok ((maskFilter df mask).length)) := rfl
      rw [hdef, herr]
      rfl
    · have hdef : Breakdown.export_eventsE df =
        Except.bind (KPIv2.strContainsExport (df.map (fun r => r.eventType)))
          (fun mask => Except.ok (maskFilter df mask)) := rfl
      rw [hdef, herr]
      rfl
  · exact (countP_erase_null df _ (fun r hr => by rw [hr]; rfl)).symm
  · intro u
    exact (countP_erase_null df _ (fun r hr => by rw [hr]; simp [containsExport])).symm
  · exact (countP_erase_null df _ (fun r hr => by rw [hr]; rfl)).symm
  · exact (filter_erase_null df _ (fun r hr => by rw [hr]; rfl)).symm

/-- A table whose export filter succeeds (the column holds a string) while a
null `EventType` row sits beside it. -/
def sampleTableC10b : Table :=
  [⟨.str "u", .str "pdfExport", .null, .null, .null⟩,
   ⟨.str "u", Value.null, .null, .null, .null⟩]

/-- Witness for the amended C10: on a string-holding column the KPI export
filter succeeds and ignores the null row; on the numeric column it raises. -/
theorem null_eventType_nonmatch_amended_witness :
    KPI.total_exportsE sampleTableC10b = .ok (KPI.total_exports sampleTableC10b) ∧
    KPI.total_exports sampleTableC10b =
      KPI.total_exports (sampleTableC10b.filter (fun r => !(r.eventType == Value.null))) ∧
    Funnel.total_exportsE sampleTableC10 = .error "AttributeError" :=
  ⟨((null_eventType_nonmatch_amended sampleTableC10b).2.1 (by decide)).1,
   (null_eventType_nonmatch_amended sampleTableC10b).2.2.2.1,
   ((null_eventType_nonmatch_amended sampleTableC10).2.2.1 (by decide)).2.2.1⟩

/-! ### Order helpers for the ranked table -/

theorem pairwise_trivial (l : List α) : l.Pairwise (fun _ _ => True) := by
  induction l with
  | nil => exact List.Pairwise.nil
  | cons x xs ih => exact List.pairwise_cons.2 ⟨fun _ _ => trivial, ih⟩

theorem urowLt_cotrans (p q r : TopUsers.URow)
    (h : decide (r.total < p.total) = true) :
    decide (q.total < p.total) = true ∨ decide (r.total < q.total) = true := by
  rw [decide_eq_true_eq] at h
  by_cases hq : q.total < p.total
  · exact Or.inl (decide_eq_true hq)
  · exact Or.inr (decide_eq_true (lt_of_lt_of_le h (le_of_not_lt hq)))

theorem urowLt_asymm (p q : TopUsers.URow)
    (h : decide (q.total < p.total) = true) :
    decide (p.total < q.total) = false := by
  rw [decide_eq_true_eq] at h
  exact decide_eq_false (by omega)

/-- A tied table whose encounter order (`c, a, b`) differs from both the
alphabetical `groupby` order and every sorted order. -/
def sampleTableC4 : Table :=
  [⟨.str "c@x", .str "userLogin", .null, .str "e1", .null⟩,
   ⟨.str "a@x", .str "userLogin", .null, .str "e2", .null⟩,
   ⟨.str "b@x", .str "userLogin", .null, .str "e3", .null⟩]

/-- C4 counterexample: Three users with equal totals are encountered in
the order `c@x, a@x, b@x`, but the built table lists them alphabetically
(`a@x, b@x, c@x`): `groupby('UserEmail')` (default `sort=True`) orders groups
by key before `sort_values`, so ties do not appear in original encounter order
as the claim states. -/
theorem rankedUsers_tie_order_counterexample :
    TopUsers.encounterUsers sampleTableC4 = ["c@x", "a@x", "b@x"] ∧
    (∀ p ∈ TopUsers.baseRows sampleTableC4, p.total = 1) ∧
    (TopUsers.rankedUsers sampleTableC4).map (fun p => p.user) =
      ["a@x", "b@x", "c@x"] ∧
    (TopUsers.claimedRankedUsers sampleTableC4).map (fun p => p.user) =
      ["c@x", "a@x", "b@x"] ∧
    TopUsers.rankedUsers sampleTableC4 ≠ TopUsers.claimedRankedUsers sampleTableC4 := by
  refine ⟨by decide, by decide, by decide, by decide, by decide⟩

/-- C4 amended: The ranked table is the per-user aggregates sorted in
descending order of total event count and truncated to 10 rows; the order
among users with equal totals is left unspecified by the code (`sort_values`'
default quicksort gives no stability guarantee) and is in particular not the
original encounter order, which `groupby`'s alphabetical key ordering has
already discarded; when there are at most 10 users no aggregate row is
dropped.  Every conjunct below holds for any descending order, so none
depends on the model's concrete tie order. -/
theorem rankedUsers_sorted_amended (df : Table) :
    (TopUsers.rankedUsers df).length ≤ 10 ∧
    (TopUsers.rankedUsers df).Pairwise (fun p q => q.total ≤ p.total) ∧
    (∀ p ∈ TopUsers.rankedUsers df, p ∈ TopUsers.baseRows df) ∧
    ((TopUsers.encounterUsers df).length ≤ 10 →
      ∀ p ∈ TopUsers.baseRows df, p ∈ TopUsers.rankedUsers df) := by
  have hpair : (TopUsers.rankedUsers df).Pairwise (fun p q => q.total ≤ p.total) := by
    rw [TopUsers.rankedUsers]
    refine List.Pairwise.sublist (List.take_sublist _ _) ?_
    have h := pairwise_stableSort (fun p q : TopUsers.URow => decide (q.total < p.total))
      (fun _ _ => True) urowLt_cotrans urowLt_asymm
      (TopUsers.baseRows df) (pairwise_trivial _)
    refine h.imp ?_
    intro p q hpq
    exact le_of_not_lt (of_decide_eq_false hpq.1)
  refine ⟨List.length_take_le _ _, hpair, ?_, ?_⟩
  · intro p hp
    exact (mem_stableSort _ _ _).1 (List.mem_of_mem_take hp)
  · intro hlen p hp
    rw [TopUsers.rankedUsers]
    have hl : (stableSort (fun p q : TopUsers.URow => decide (q.total < p.total))
        (TopUsers.baseRows df)).length ≤ 10 := by
      rw [(stableSort_perm _ _).length_eq, TopUsers.baseRows, List.length_map,
        TopUsers.groupUsers, (stableSort_perm _ _).length_eq]
      exact hlen
    rw [List.take_of_length_le hl]
    exact (mem_stableSort _ _ _).2 hp

/-- Witness for the amended C4 on the concrete tied table. -/
theorem rankedUsers_sorted_amended_witness :
    (TopUsers.encounterUsers sampleTableC4).length ≤ 10 ∧
    TopUsers.mkURow sampleTableC4 "a@x" ∈ TopUsers.rankedUsers sampleTableC4 :=
  ⟨by decide,
   (rankedUsers_sorted_amended sampleTableC4).2.2.2 (by decide) _ (by decide)⟩

/-- A sample table for C9: every row has a non-null `EventID`. -/
def sampleTableC9 : Table :=
  [⟨.str "a@x", .str "notesGenerated", .null, .str "e1", .null⟩,
   ⟨.str "a@x", .str "pdfExport", .null, .str "e2", .null⟩,
   ⟨.str "b@x", .str "userLogin", .null, .str "e3", .null⟩]

/-- C9: When every row has a non-null `EventID`, each row of the ranked
table satisfies `Notes Generated ≤ Total Events` and
`Total Exports ≤ Total Events`. -/
theorem rankedUsers_subcounts_le_total (df : Table)
    (h : ∀ r ∈ df, r.eventID ≠ Value.null) :
    ∀ p ∈ TopUsers.rankedUsers df, p.notes ≤ p.total ∧ p.exports ≤ p.total := by
  intro p hp
  have hbase : p ∈ TopUsers.baseRows df :=
    (mem_stableSort _ _ _).1 (List.mem_of_mem_take hp)
  rcases List.mem_map.1 hbase with ⟨u, hu, hpu⟩
  subst hpu
  constructor
  · show df.countP (fun r => decide (r.userEmail = .str u)
        && decide (r.eventType = .str "notesGenerated")) ≤
      df.countP (fun r => decide (r.userEmail = .str u) && decide (r.eventID ≠ .null))
    refine List.countP_mono_left ?_
    intro r hr hcond
    simp only [Bool.and_eq_true, decide_eq_true_eq] at hcond ⊢
    exact ⟨hcond.1, h r hr⟩
  · show df.countP (fun r => decide (r.userEmail = .str u)
        && containsExport r.eventType) ≤
      df.countP (fun r => decide (r.userEmail = .str u) && decide (r.eventID ≠ .null))
    refine List.countP_mono_left ?_
    intro r hr hcond
    simp only [Bool.and_eq_true, decide_eq_true_eq] at hcond ⊢
    exact ⟨hcond.1, h r hr⟩

/-! ### Order helpers for `value_counts` -/

theorem pairLt_cotrans (p q r : Value × Nat) (h : decide (r.2 < p.2) = true) :
    decide (q.2 < p.2) = true ∨ decide (r.2 < q.2) = true := by
  rw [decide_eq_true_eq] at h
  by_cases hq : q.2 < p.2
  · exact Or.inl (decide_eq_true hq)
  · exact Or.inr (decide_eq_true (lt_of_lt_of_le h (le_of_not_lt hq)))

theorem pairLt_asymm (p q : Value × Nat) (h : decide (q.2 < p.2) = true) :
    decide (p.2 < q.2) = false := by
  rw [decide_eq_true_eq] at h
  exact decide_eq_false (by omega)

/-- A table with 6 distinct `EventType`s of strictly descending frequency
(a:6, b:5, c:4, d:3, e:2, f:1) in which both rows of type `e` have a null
`EventDate`. -/
def sampleTableC5 : Table :=
  [⟨.str "u", .str "a", .str "d1", .null, .null⟩,
   ⟨.str "u", .str "a", .str "d1", .null, .null⟩,
   ⟨.str "u", .str "a", .str "d1", .null, .null⟩,
   ⟨.str "u", .str "a", .str "d2", .null, .null⟩,
   ⟨.str "u", .str "a", .str "d2", .null, .null⟩,
   ⟨.str "u", .str "a", .str "d2", .null, .null⟩,
   ⟨.str "u", .str "b", .str "d1", .null, .null⟩,
   ⟨.str "u", .str "b", .str "d1", .null, .null⟩,
   ⟨.str "u", .str "b", .str "d1", .null, .null⟩,
   ⟨.str "u", .str "b", .str "d2", .null, .null⟩,
   ⟨.str "u", .str "b", .str "d2", .null, .null⟩,
   ⟨.str "u", .str "c", .str "d1", .null, .null⟩,
   ⟨.str "u", .str "c", .str "d1", .null, .null⟩,
   ⟨.str "u", .str "c", .str "d2", .null, .null⟩,
   ⟨.str "u", .str "c", .str "d2", .null, .null⟩,
   ⟨.str "u", .str "d", .str "d1", .null, .null⟩,
   ⟨.str "u", .str "d", .str "d1", .null, .null⟩,
   ⟨.str "u", .str "d", .str "d2", .null, .null⟩,
   ⟨.str "u", .str "e", .null, .null, .null⟩,
   ⟨.str "u", .str "e", .null, .null, .null⟩,
   ⟨.str "u", .str "f", .str "d1", .null, .null⟩]

/-- C5 counterexample: On a table with 6 distinct `EventType`s of strictly
descending frequency, the type `e` is among the 5 with the highest counts
(`value_counts().head(5)`), yet it is not plotted: both of its rows have a
null `EventDate`, so the date/type `groupby` drops them and its series is
empty, and the script skips empty series.  The plotted set is therefore not
"exactly the 5 EventType values with the highest overall row counts". -/
theorem usage_top5_counterexample :
    Usage.topEvents sampleTableC5 =
      [.str "a", .str "b", .str "c", .str "d", .str "e"] ∧
    Usage.typeCount sampleTableC5 (.str "e") = 2 ∧
    Usage.typeCount sampleTableC5 (.str "f") = 1 ∧
    Usage.plottedSeries sampleTableC5 = [.str "a", .str "b", .str "c", .str "d"] ∧
    Value.str "e" ∉ Usage.plottedSeries sampleTableC5 := by
  refine ⟨by decide, by decide, by decide, by decide, by decide⟩

/-- C5 amended: For a table with at least 6 distinct (non-null)
`EventType`s: exactly 5 types are selected; every plotted series is a selected
type; a selected type is plotted iff it has at least one row with a non-null
`EventDate`; every non-selected type has a count no larger than any selected
type (so a type with a count strictly below all 5 is never plotted); and when
every row has a non-null date the plotted set is exactly the selected 5. -/
theorem usage_top5_amended (df : Table)
    (h6 : 6 ≤ (Usage.distinctTypes df).length) :
    (Usage.topEvents df).length = 5 ∧
    (∀ t ∈ Usage.plottedSeries df, t ∈ Usage.topEvents df) ∧
    (∀ t ∈ Usage.topEvents df,
      (t ∈ Usage.plottedSeries df ↔ ∃ r ∈ df, r.eventType = t ∧ r.eventDate ≠ .null)) ∧
    (∀ s ∈ Usage.topEvents df, ∀ t ∈ Usage.distinctTypes df,
      t ∉ Usage.topEvents df → Usage.typeCount df t ≤ Usage.typeCount df s) ∧
    ((∀ r ∈ df, r.eventDate ≠ .null) →
      Usage.plottedSeries df = Usage.topEvents df) := by
  have hperm := stableSort_perm (fun p q : Value × Nat => decide (q.2 < p.2))
    ((Usage.distinctTypes df).map (fun t => (t, Usage.typeCount df t)))
  refine ⟨?_, ?_, ?_, ?_, ?_⟩
  · have hlen : (Usage.typeValueCounts df).length = (Usage.distinctTypes df).length := by
      rw [Usage.typeValueCounts, hperm.length_eq, List.length_map]
    rw [Usage.topEvents, List.length_map, List.length_take, hlen]
    omega
  · intro t ht
    exact List.mem_of_mem_filter ht
  · intro t ht
    rw [Usage.plottedSeries, List.mem_filter]
    constructor
    · rintro ⟨-, hb⟩
      rw [Usage.seriesNonempty] at hb
      rcases List.any_eq_true.1 hb with ⟨r, hr, hpr⟩
      simp only [Bool.and_eq_true, decide_eq_true_eq] at hpr
      exact ⟨r, hr, hpr.1, hpr.2⟩
    · rintro ⟨r, hr, h1, h2⟩
      refine ⟨ht, ?_⟩
      rw [Usage.seriesNonempty]
      refine List.any_eq_true.2 ⟨r, hr, ?_⟩
      simp only [Bool.and_eq_true, decide_eq_true_eq]
      exact ⟨h1, h2⟩
  · intro s hs t htd htn
    rw [Usage.topEvents] at hs
    rcases List.mem_map.1 hs with ⟨ps, hps, hps1⟩
    have hsorted := pairwise_stableSort (fun p q : Value × Nat => decide (q.2 < p.2))
      (fun _ _ => True) pairLt_cotrans pairLt_asymm
      ((Usage.distinctTypes df).map (fun t => (t, Usage.typeCount df t)))
      (pairwise_trivial _)
    have hps_mem : ps ∈ Usage.typeValueCounts df := List.mem_of_mem_take hps
    rcases List.mem_map.1 (hperm.mem_iff.1 hps_mem) with ⟨k, hk, hkps⟩
    have hps2 : ps.2 = Usage.typeCount df s := by
      have hk1 : ps.1 = k := by rw [← hkps]
      have hk2 : ps.2 = Usage.typeCount df k := by rw [← hkps]
      rw [hk2, ← hk1, hps1]
    have htpair : (t, Usage.typeCount df t) ∈ Usage.typeValueCounts df :=
      hperm.mem_iff.2 (List.mem_map.2 ⟨t, htd, rfl⟩)
    rw [← List.take_append_drop 5 (Usage.typeValueCounts df)] at htpair
    rcases List.mem_append.1 htpair with h1 | h2
    · exact absurd (by rw [Usage.topEvents]; exact List.mem_map.2 ⟨_, h1, rfl⟩) htn
    · have hsorted' : ((Usage.typeValueCounts df).take 5 ++
          (Usage.typeValueCounts df).drop 5).Pairwise
          (fun p q => decide (p.2 < q.2) = false ∧
            (decide (q.2 < p.2) = true ∨ True)) := by
        rw [List.take_append_drop]
        exact hsorted
      have hcross := (List.pairwise_append.1 hsorted').2.2
      have hS := hcross ps hps _ h2
      have hle : ¬ (ps.2 < (t, Usage.typeCount df t).2) := of_decide_eq_false hS.1
      rw [hps2] at hle
      exact le_of_not_lt hle
  · intro hdate
    rw [Usage.plottedSeries, List.filter_eq_self]
    intro t ht
    rw [Usage.topEvents] at ht
    rcases List.mem_map.1 ht with ⟨p, hp, hp1⟩
    rcases List.mem_map.1 (hperm.mem_iff.1 (List.mem_of_mem_take hp)) with ⟨k, hk, hkp⟩
    have htk : t ∈ Usage.distinctTypes df := by
      have : t = k := by rw [← hp1, ← hkp]
      rw [this]
      exact hk
    have ht2 := List.mem_of_mem_filter ((mem_dedupFirst _ _).1 htk)
    rcases List.mem_map.1 ht2 with ⟨r, hr, hrt⟩
    rw [Usage.seriesNonempty]
    refine List.any_eq_true.2 ⟨r, hr, ?_⟩
    simp only [Bool.and_eq_true, decide_eq_true_eq]
    exact ⟨hrt, hdate r hr⟩

/-- Witness for the amended C5 on the concrete 6-type table. -/
theorem usage_top5_amended_witness :
    (Usage.topEvents sampleTableC5).length = 5 ∧
    Usage.typeCount sampleTableC5 (.str "f") ≤ Usage.typeCount sampleTableC5 (.str "a") :=
  ⟨(usage_top5_amended sampleTableC5 (by decide)).1,
   (usage_top5_amended sampleTableC5 (by decide)).2.2.2.1
     (.str "a") (by decide) (.str "f") (by decide) (by decide)⟩

/-- Witness for C9 on a concrete table with non-null `EventID`s. -/
theorem rankedUsers_subcounts_le_total_witness :
    (∀ r ∈ sampleTableC9, r.eventID ≠ Value.null) ∧
    (TopUsers.mkURow sampleTableC9 "a@x").notes ≤
      (TopUsers.mkURow sampleTableC9 "a@x").total ∧
    (TopUsers.mkURow sampleTableC9 "a@x").exports ≤
      (TopUsers.mkURow sampleTableC9 "a@x").total :=
  ⟨by decide,
   (rankedUsers_subcounts_le_total sampleTableC9 (by decide) _ (by decide)).1,
   (rankedUsers_subcounts_le_total sampleTableC9 (by decide) _ (by decide)).2⟩

/-! ### Helpers for the display label and the breakdown -/

theorem takeWhile_all_true {p : α → Bool} : ∀ (l : List α),
    (∀ c ∈ l, p c = true) → l.takeWhile p = l
  | [], _ => rfl
  | c :: cs, h => by
    rw [List.takeWhile_cons, if_pos (h c (List.mem_cons_self c cs))]
    rw [takeWhile_all_true cs (fun x hx => h x (List.mem_cons_of_mem c hx))]

theorem localPart_eq_takeWhile (x : String) :
    TopUsers.localPart x = ⟨x.data.takeWhile (fun c => !(c == '@'))⟩ := by
  rw [TopUsers.localPart]
  by_cases h : x.data.contains '@' = true
  · rw [if_pos h]
  · rw [if_neg h]
    have hall : ∀ c ∈ x.data, (!(c == '@')) = true := by
      intro c hc
      by_cases hc' : c = '@'
      · exact absurd (hc' ▸ List.elem_eq_true_of_mem hc) h
      · simp [hc']
    rw [takeWhile_all_true _ hall]

/-- Every entry of a `value_counts` is a (distinct value, its count) pair. -/
theorem typeValueCounts_mem (d : Table) (p : Value × Nat)
    (hp : p ∈ Usage.typeValueCounts d) :
    ∃ k ∈ Usage.distinctTypes d, p = (k, Usage.typeCount d k) := by
  rcases List.mem_map.1 ((stableSort_perm _ _).mem_iff.1 hp) with ⟨k, hk, hkp⟩
  exact ⟨k, hk, hkp.symm⟩

/-- A two-row sample table for C8: one user who generated a note and made one
export. -/
def sampleTableC8 : Table :=
  [⟨.str "alice@contoso.com", .str "notesGenerated", .null, .str "e1", .null⟩,
   ⟨.str "alice@contoso.com", .str "pdfExport", .null, .str "e2", .null⟩]

/-- C8: For every displayed user, `Notes Generated` and `Total Exports`
equal that user's number of matching events (0 when the user has no such
events — the `fillna(0)`), and the display label is the local part of the
email (the longest prefix of `UserEmail` before `'@'`). -/
theorem topUsers_row_fields (df : Table) :
    ∀ p ∈ TopUsers.rankedUsers df,
      p.notes = df.countP (fun r => decide (r.userEmail = .str p.user)
        && decide (r.eventType = .str "notesGenerated")) ∧
      p.exports = df.countP (fun r => decide (r.userEmail = .str p.user)
        && containsExport r.eventType) ∧
      ((∀ r ∈ df, ¬(r.userEmail = .str p.user ∧
          r.eventType = .str "notesGenerated")) → p.notes = 0) ∧
      ((∀ r ∈ df, ¬(r.userEmail = .str p.user ∧
          containsExport r.eventType = true)) → p.exports = 0) ∧
      p.label = ⟨p.user.data.takeWhile (fun c => !(c == '@'))⟩ := by
  intro p hp
  have hbase : p ∈ TopUsers.baseRows df :=
    (mem_stableSort _ _ _).1 (List.mem_of_mem_take hp)
  rcases List.mem_map.1 hbase with ⟨u, hu, hpu⟩
  subst hpu
  refine ⟨rfl, rfl, ?_, ?_, localPart_eq_takeWhile u⟩
  · intro h
    show df.countP (fun r => decide (r.userEmail = .str u)
      && decide (r.eventType = .str "notesGenerated")) = 0
    refine List.countP_eq_zero.2 ?_
    intro r hr hcond
    simp only [Bool.and_eq_true, decide_eq_true_eq] at hcond
    exact h r hr ⟨hcond.1, hcond.2⟩
  · intro h
    show df.countP (fun r => decide (r.userEmail = .str u)
      && containsExport r.eventType) = 0
    refine List.countP_eq_zero.2 ?_
    intro r hr hcond
    simp only [Bool.and_eq_true, decide_eq_true_eq] at hcond
    exact h r hr ⟨hcond.1, hcond.2⟩

/-- Witness for C8 on a concrete table: the email's local part and a
sub-count. -/
theorem topUsers_row_fields_witness :
    (TopUsers.mkURow sampleTableC8 "alice@contoso.com").label = "alice" ∧
    (TopUsers.mkURow sampleTableC8 "alice@contoso.com").notes = 1 :=
  ⟨((topUsers_row_fields sampleTableC8) _ (by decide)).2.2.2.2.trans (by decide),
   ((topUsers_row_fields sampleTableC8) _ (by decide)).1.trans (by decide)⟩

/-- A one-row sample table for C7. -/
def sampleTableC7 : Table :=
  [⟨.str "u", .str "pdfExport", .null, .null, .null⟩]

/-- C7: Every export-breakdown group takes its display name from the fixed
five-entry lookup when its raw `EventType` is a known key, and otherwise from
the generic transform (`replace('Export', ' Export')` then `title()`); every
group key is a string `EventType` of a row passing the case-insensitive
`'Export'` substring filter. -/
theorem export_breakdown_display (df : Table) :
    (∀ q ∈ Breakdown.exportBreakdown df, ∃ x : String,
      Value.str x ∈ Usage.eventTypes (Breakdown.export_events df) ∧
      containsExport (.str x) = true ∧
      q.1 = .str (Breakdown.displayName x) ∧
      q.2 = Usage.typeCount (Breakdown.export_events df) (.str x)) ∧
    Breakdown.displayName "pdfExport" = "PDF Export" ∧
    Breakdown.displayName "clipboardExport" = "Clipboard Export" ∧
    Breakdown.displayName "emailExport" = "Email Export" ∧
    Breakdown.displayName "csvExport" = "CSV Export" ∧
    Breakdown.displayName "docxExport" = "DOCX Export" ∧
    (∀ x : String, Breakdown.export_type_mapping.lookup x = none →
      Breakdown.displayName x = ⟨Breakdown.pyTitle false (Breakdown.pyReplaceExport x.data)⟩) ∧
    Breakdown.displayName "keynoteExport" = "Keynote Export" := by
  refine ⟨?_, by decide, by decide, by decide, by decide, by decide, ?_, by decide⟩
  · intro q hq
    rcases List.mem_map.1 hq with ⟨p, hp, hpq⟩
    rcases typeValueCounts_mem _ p hp with ⟨k, hk, hkp⟩
    have hk2 := List.mem_of_mem_filter ((mem_dedupFirst _ _).1 hk)
    rcases List.mem_map.1 hk2 with ⟨r, hr, hrk⟩
    have hr2 : r ∈ df.filter (fun r => containsExport r.eventType) := hr
    have hcr0 := List.of_mem_filter hr2
    have hcr : containsExport r.eventType = true := hcr0
    rw [hrk] at hcr
    cases k with
    | str x =>
      refine ⟨x, hk2, hcr, ?_, ?_⟩
      · rw [← hpq, hkp]
        rfl
      · rw [← hpq, hkp]
    | num n => exact absurd hcr (by simp [containsExport])
    | null => exact absurd hcr (by simp [containsExport])
  · intro x hx
    rw [Breakdown.displayName, hx]

/-- Witness for C7 on a concrete table with one `pdfExport` row. -/
theorem export_breakdown_display_witness :
    ∃ x : String,
      Value.str x ∈ Usage.eventTypes (Breakdown.export_events sampleTableC7) ∧
      containsExport (.str x) = true ∧
      (Value.str "PDF Export", 1).1 = .str (Breakdown.displayName x) ∧
      (Value.str "PDF Export", 1).2 =
        Usage.typeCount (Breakdown.export_events sampleTableC7) (.str x) :=
  (export_breakdown_display sampleTableC7).1 (Value.str "PDF Export", 1) (by decide)

/-! ### Column-resolver helpers -/

theorem lowerLookup_none_iff (cols : List String) (k : String) :
    KPIv2.lowerLookup cols k = none ↔ ∀ c ∈ cols, lcStr c ≠ k := by
  rw [KPIv2.lowerLookup, List.getLast?_eq_none_iff, List.filter_eq_nil_iff]
  constructor
  · intro h c hc
    have := h c hc
    simpa using this
  · intro h c hc
    simp [h c hc]

theorem lowerLookup_some (cols : List String) (k c : String)
    (h : KPIv2.lowerLookup cols k = some c) : c ∈ cols ∧ lcStr c = k := by
  rw [KPIv2.lowerLookup] at h
  have hmem := List.mem_of_getLast?_eq_some h
  exact ⟨List.mem_of_mem_filter hmem, by simpa using List.of_mem_filter hmem⟩

theorem find_column_none_iff (df : DataFrame) (aliases : List String) :
    KPIv2.find_column df aliases = none ↔
      ∀ a ∈ aliases, ∀ c ∈ df.columns, lcStr a ≠ lcStr c := by
  induction aliases with
  | nil => simp [KPIv2.find_column]
  | cons a rest ih =>
    rw [KPIv2.find_column, List.findSome?_cons]
    cases hla : KPIv2.lowerLookup df.columns (lcStr a) with
    | some c =>
      constructor
      · intro h
        simp at h
      · intro h
        rcases lowerLookup_some _ _ _ hla with ⟨hc, hlc⟩
        exact absurd hlc.symm (h a (List.mem_cons_self _ _) c hc)
    | none =>
      show KPIv2.find_column df rest = none ↔ _
      constructor
      · intro h b hb c hc
        rcases List.mem_cons.1 hb with h1 | h1
        · subst h1
          intro he
          exact (lowerLookup_none_iff df.columns (lcStr b)).1 hla c hc he.symm
        · exact (ih.1 h) b h1 c hc
      · intro h
        exact ih.2 (fun b hb c hc => h b (List.mem_cons_of_mem a hb) c hc)

theorem find_column_some (df : DataFrame) (aliases : List String) (c : String)
    (h : KPIv2.find_column df aliases = some c) :
    c ∈ df.columns ∧ ∃ pre a post, aliases = pre ++ a :: post ∧
      lcStr a = lcStr c ∧ ∀ a' ∈ pre, ∀ c' ∈ df.columns, lcStr a' ≠ lcStr c' := by
  induction aliases with
  | nil => simp [KPIv2.find_column] at h
  | cons a rest ih =>
    rw [KPIv2.find_column, List.findSome?_cons] at h
    cases hla : KPIv2.lowerLookup df.columns (lcStr a) with
    | some c0 =>
      rw [hla] at h
      have hc0 : c0 = c := by simpa using h
      subst hc0
      rcases lowerLookup_some _ _ _ hla with ⟨hc, hlc⟩
      exact ⟨hc, [], a, rest, rfl, hlc.symm, by simp⟩
    | none =>
      rw [hla] at h
      have h' : KPIv2.find_column df rest = some c := h
      rcases ih h' with ⟨hc, pre, a', post, heq, hlc, hpre⟩
      refine ⟨hc, a :: pre, a', post, by rw [heq]; rfl, hlc, ?_⟩
      intro b hb c' hc'
      rcases List.mem_cons.1 hb with h1 | h1
      · subst h1
        intro he
        exact (lowerLookup_none_iff df.columns (lcStr b)).1 hla c' hc' he.symm
      · exact hpre b h1 c' hc'

/-- C2: `find_column` returns an actual column name of the table that
matches — case-insensitively and exactly — the earliest alias with a match
(every alias before it matches no column), and returns `None` exactly when no
alias matches any column; on a table whose only matching column is literally
`Email`, the alias list `[UserEmail, useremail, user_email, Email, User]`
resolves to `Email`. -/
theorem find_column_contract (df : DataFrame) (aliases : List String) :
    (KPIv2.find_column df aliases = none ↔
      ∀ a ∈ aliases, ∀ c ∈ df.columns, lcStr a ≠ lcStr c) ∧
    (∀ c, KPIv2.find_column df aliases = some c →
      c ∈ df.columns ∧ ∃ pre a post, aliases = pre ++ a :: post ∧
        lcStr a = lcStr c ∧ ∀ a' ∈ pre, ∀ c' ∈ df.columns, lcStr a' ≠ lcStr c') ∧
    KPIv2.find_column ⟨["EventDate", "Email"], []⟩ KPIv2.userAliases = some "Email" :=
  ⟨find_column_none_iff df aliases,
   fun c h => find_column_some df aliases c h,
   by decide⟩

/-- Witness for C2: the resolver's answer on the spec's example, with the
earliest-match decomposition. -/
theorem find_column_contract_witness :
    "Email" ∈ (⟨["EventDate", "Email"], []⟩ : DataFrame).columns ∧
    ∃ pre a post, KPIv2.userAliases = pre ++ a :: post ∧
      lcStr a = lcStr "Email" ∧
      ∀ a' ∈ pre, ∀ c' ∈ (⟨["EventDate", "Email"], []⟩ : DataFrame).columns,
        lcStr a' ≠ lcStr c' :=
  (find_column_contract ⟨["EventDate", "Email"], []⟩ KPIv2.userAliases).2.1
    "Email" (by decide)

/-- A frame with no user column and a numeric `EventType` column: the `.str`
accessor on `EventType` raises, and the user metric cannot resolve. -/
def sampleFrameC3 : DataFrame :=
  ⟨["EventType", "TourAction"],
   [[.num 1, .str "x"], [.num 2, .str "y"]]⟩

/-- C3: The v2 script always finishes with a 4-tuple (never aborts), each
component being exactly the metric computed on its own from the table; a
metric whose column cannot be resolved is 0, a metric whose raw computation
raises is 0, and a metric whose raw computation succeeds keeps its raw value —
independently of the other metrics. -/
theorem kpiV2_isolation (df : DataFrame) :
    KPIv2.kpiV2Script df = .ok
      (KPIv2.totalUsersV2 df, KPIv2.notesGeneratedV2 df,
       KPIv2.totalExportsV2 df, KPIv2.tourRateV2 df) ∧
    (KPIv2.find_column df KPIv2.userAliases = none → KPIv2.totalUsersV2 df = 0) ∧
    (KPIv2.find_column df KPIv2.eventTypeAliases = none →
      KPIv2.notesGeneratedV2 df = 0 ∧ KPIv2.totalExportsV2 df = 0) ∧
    (KPIv2.find_column df KPIv2.tourActionAliases = none → KPIv2.tourRateV2 df = 0) ∧
    (∀ c e, KPIv2.find_column df KPIv2.userAliases = some c →
      KPIv2.rawTotalUsers df c = .error e → KPIv2.totalUsersV2 df = 0) ∧
    (∀ c e, KPIv2.find_column df KPIv2.eventTypeAliases = some c →
      KPIv2.rawNotesGenerated df c = .error e → KPIv2.notesGeneratedV2 df = 0) ∧
    (∀ c e, KPIv2.find_column df KPIv2.eventTypeAliases = some c →
      KPIv2.rawTotalExports df c = .error e → KPIv2.totalExportsV2 df = 0) ∧
    (∀ c e, KPIv2.find_column df KPIv2.tourActionAliases = some c →
      KPIv2.rawTourRate df c = .error e → KPIv2.tourRateV2 df = 0) ∧
    (∀ c v, KPIv2.find_column df KPIv2.eventTypeAliases = some c →
      KPIv2.rawTotalExports df c = .ok v → KPIv2.totalExportsV2 df = v) := by
  refine ⟨rfl, ?_, ?_, ?_, ?_, ?_, ?_, ?_, ?_⟩
  · intro h
    simp [KPIv2.totalUsersV2, h]
  · intro h
    exact ⟨by simp [KPIv2.notesGeneratedV2, h], by simp [KPIv2.totalExportsV2, h]⟩
  · intro h
    simp [KPIv2.tourRateV2, h]
  · intro c e hc he
    simp [KPIv2.totalUsersV2, hc, he, KPIv2.tryZeroNat, Except.toOption]
  · intro c e hc he
    simp [KPIv2.notesGeneratedV2, hc, he, KPIv2.tryZeroNat, Except.toOption]
  · intro c e hc he
    simp [KPIv2.totalExportsV2, hc, he, KPIv2.tryZeroNat, Except.toOption]
  · intro c e hc he
    simp [KPIv2.tourRateV2, hc, he, KPIv2.tryZeroRat, Except.toOption]
  · intro c v hc hv
    simp [KPIv2.totalExportsV2, hc, hv, KPIv2.tryZeroNat, Except.toOption]

/-- Witness for C3: on a frame with no user column and a numeric `EventType`
column, the script still returns a full tuple, the unresolvable metric and the
raising metric are 0, and the tour metric is computed normally. -/
theorem kpiV2_isolation_witness :
    KPIv2.kpiV2Script sampleFrameC3 =
      .ok (0, 0, 0, (0 : ℚ)) ∧
    KPIv2.totalUsersV2 sampleFrameC3 = 0 ∧
    KPIv2.totalExportsV2 sampleFrameC3 = 0 := by
  refine ⟨?_, ?_, ?_⟩
  · have h1 : KPIv2.totalUsersV2 sampleFrameC3 = 0 := by decide
    have h2 : KPIv2.notesGeneratedV2 sampleFrameC3 = 0 := by decide
    have h3 : KPIv2.totalExportsV2 sampleFrameC3 = 0 := by decide
    have h4 : KPIv2.tourRateV2 sampleFrameC3 = 0 := rfl
    rw [(kpiV2_isolation sampleFrameC3).1, h1, h2, h3, h4]
  · exact (kpiV2_isolation sampleFrameC3).2.1 (by decide)
  · exact (kpiV2_isolation sampleFrameC3).2.2.2.2.2.2.1
      "EventType" "AttributeError" (by decide) (by rfl)

end MeetingNotes
